import Mathlib

/-!
# vMix camera timer: tally relay

A shallow embedding of `src/cameraTimerServer.js` (the relay: name handshake,
tally decoding, fan-out, reconnect back-off) and of the `ws.onmessage` handler
of `src/src/vmixActiveTimer.ts` (the browser client).

Conventions.
* A JavaScript string is a `List Char`. Every string handled here comes from
  `data.toString()` (a UTF-8 decode, always well formed) or from a literal, so
  a list of Unicode scalars represents it; a JavaScript string index counts
  UTF-16 code units, which `utf16Length` accounts for.
* A JavaScript array that may have holes is a `List (Option _)`; its
  `length` is the length of the list and a hole reads as `undefined` (`none`).
* `JSON.stringify` on the server followed by `JSON.parse` in the browser is
  the identity on the two object shapes that travel downstream, so a frame is
  modelled by the object itself (`WireMessage`).
* An exception thrown by a handler is a value of `Except JSError _`.
-/

namespace VmixTimer

/-! ## JavaScript strings -/

/-- A JavaScript string, as the sequence of its Unicode scalars. -/
abbrev JSString := List Char

/-- Number of UTF-16 code units of one character. -/
def utf16Units (c : Char) : Nat :=
  if c.toNat < 65536 then 1 else 2

/-- The `length` of a JavaScript string: its number of UTF-16 code units. -/
def utf16Length : JSString → Nat
  | [] => 0
  | c :: cs => utf16Units c + utf16Length cs

/-- The characters `String.prototype.trim` strips: ECMAScript WhiteSpace and
LineTerminator. -/
def isJSWhitespace (c : Char) : Bool :=
  let n := c.toNat
  n == 0x09 || n == 0x0A || n == 0x0B || n == 0x0C || n == 0x0D || n == 0x20 ||
  n == 0xA0 || n == 0x1680 || (0x2000 ≤ n && n ≤ 0x200A) || n == 0x2028 ||
  n == 0x2029 || n == 0x202F || n == 0x205F || n == 0x3000 || n == 0xFEFF

/-- `s.trim()`. -/
def jsTrim (s : JSString) : JSString :=
  ((s.dropWhile isJSWhitespace).reverse.dropWhile isJSWhitespace).reverse

/-- `s.startsWith(p)`. -/
def jsStartsWith (s p : JSString) : Bool :=
  p.isPrefixOf s

/-- Worker of `jsSplit`: `skip` counts the characters of a separator that
was just matched and that are still to be passed over. -/
def jsSplitGo (sep : JSString) : JSString → Nat → List JSString
  | [], _ => [[]]
  | _ :: cs, skip + 1 => jsSplitGo sep cs skip
  | c :: cs, 0 =>
    if sep.isPrefixOf (c :: cs) then
      [] :: jsSplitGo sep cs (sep.length - 1)
    else
      match jsSplitGo sep cs 0 with
      | [] => [[c]]
      | piece :: pieces => (c :: piece) :: pieces

/-- `s.split(sep)` for a non-empty separator string: the pieces between the
successive occurrences of `sep`, scanned left to right. -/
def jsSplit (s sep : JSString) : List JSString :=
  jsSplitGo sep s 0

/-- `s.indexOf(c)` for a one-character search string: the UTF-16 index of
the first occurrence, `-1` when there is none. -/
def jsIndexOf (c : Char) : JSString → Int
  | [] => -1
  | d :: ds =>
    if d = c then 0
    else
      let r := jsIndexOf c ds
      if r < 0 then -1 else (utf16Units d : Int) + r

/-- `s.includes(sep)`: whether `sep` occurs in `s`. -/
def jsIncludes (sep : JSString) : JSString → Bool
  | [] => sep.isPrefixOf []
  | c :: cs => sep.isPrefixOf (c :: cs) || jsIncludes sep cs

/-- Truthiness of a string: every string but the empty one. -/
def jsTruthy (s : JSString) : Bool :=
  !s.isEmpty

/-! ## Values, frames, subscribers -/

deriving instance DecidableEq for Except

/-- What a handler can throw. -/
inductive JSError
  /-- Reading a property of `undefined`. -/
  | typeError
  /-- The error `send` of the `ws` library throws on a socket that is still
  connecting. -/
  | notOpen
  deriving DecidableEq

/-- A JavaScript value that is a string or a number: the `tally` field of an
event holds a display name or a slot number. -/
inductive TallyValue
  | name (s : JSString)
  | slot (n : Int)
  deriving DecidableEq

/-- A frame on the downstream channel: `{ message: text }` or `{ tally: v }`. -/
inductive WireMessage
  | message (text : JSString)
  | tally (v : TallyValue)
  deriving DecidableEq

/-- The `readyState` of a WebSocket. -/
inductive ReadyState
  | CONNECTING
  | OPEN
  | CLOSING
  | CLOSED
  deriving DecidableEq

/-- One member of `wss.clients`. -/
structure Client where
  id : Nat
  readyState : ReadyState
  deriving DecidableEq

/-- A line written to the vMix socket. `xmltextTitle i` stands for
`XMLTEXT vmix/inputs/input[i]/@title\r\n`. -/
inductive VmixCommand
  | xmltextTitle (slot : Nat)
  | subscribeTally
  | unsubscribeTally
  deriving DecidableEq

/-- An array of strings that may have holes (`inputNames`). -/
abbrev JSArray := List (Option JSString)

/-- The read `a[i]`: `undefined` on a hole or outside the array. -/
def jsArrayGet (a : JSArray) (i : Int) : Option JSString :=
  if i < 0 then none else a.getD i.toNat none

/-- The write `a[i] = v`: past the end the array grows, leaving holes. -/
def jsArraySet (a : JSArray) (i : Nat) (v : JSString) : JSArray :=
  if i < a.length then a.set i (some v)
  else a ++ List.replicate (i - a.length) none ++ [some v]

/-- The call `client.send(frame)` of the `ws` library: it throws while the
socket is `CONNECTING`, delivers the frame when it is `OPEN`, and delivers
nothing (without throwing) once the socket is closing or closed. The result
is the list of deliveries made. -/
def wsSend (client : Client) (frame : WireMessage) : Except JSError (List (Nat × WireMessage)) :=
  match client.readyState with
  | ReadyState.CONNECTING => Except.error JSError.notOpen
  | ReadyState.OPEN => Except.ok [(client.id, frame)]
  | ReadyState.CLOSING => Except.ok []
  | ReadyState.CLOSED => Except.ok []

/-- The loop `wss.clients.forEach(client => { if (client.readyState ===
client.OPEN) client.send(JSON.stringify(msg)) })`, continued from the
deliveries `sent` made so far: the frames delivered, in order, each with the
id of the client it goes to, or the exception that escapes the loop. -/
def broadcastFrom (msg : WireMessage) :
    List Client → List (Nat × WireMessage) → Except JSError (List (Nat × WireMessage))
  | [], sent => Except.ok sent
  | client :: rest, sent =>
    if client.readyState = ReadyState.OPEN then
      match wsSend client msg with
      | Except.ok delivered => broadcastFrom msg rest (sent ++ delivered)
      | Except.error e => Except.error e
    else
      broadcastFrom msg rest sent

/-- The fan-out loop over `wss.clients`. -/
def broadcast (clients : List Client) (msg : WireMessage) :
    Except JSError (List (Nat × WireMessage)) :=
  broadcastFrom msg clients []

/-! ## fetchInputNames -/

/-- The configured `inputCount`. -/
def inputCount : Nat := 8

/-- The success prefix `"XMLTEXT OK "`. -/
def xmltextOk : JSString :=
  ['X', 'M', 'L', 'T', 'E', 'X', 'T', ' ', 'O', 'K', ' ']

/-- The closure state of `fetchInputNames`: `inputNames`, `i`, whether
`nameHandler` is still a `data` listener, the value the promise resolved with,
and the queries written so far. -/
structure HandshakeState where
  inputNames : JSArray
  i : Nat
  listening : Bool
  resolved : Option JSArray
  written : List VmixCommand
  deriving DecidableEq

/-- The state `fetchInputNames` leaves when it returns its promise: empty
`inputNames`, `i = 1`, the listener installed, the first query written. -/
def fetchInputNames : HandshakeState :=
  { inputNames := [], i := 1, listening := true, resolved := none,
    written := [VmixCommand.xmltextTitle 1] }

/-- One run of `nameHandler` on a chunk, for a slot count `count`. -/
def nameHandler (count : Nat) (st : HandshakeState) (message : JSString) : HandshakeState :=
  let inputName := ((jsSplit message xmltextOk)[1]?).map jsTrim
  let inputNames :=
    match inputName with
    | some name => if jsTruthy name then jsArraySet st.inputNames st.i name else st.inputNames
    | none => st.inputNames
  if inputNames.length = count then
    { st with inputNames := inputNames, listening := false, resolved := some inputNames }
  else
    { st with inputNames := inputNames, i := st.i + 1,
              written := st.written ++ [VmixCommand.xmltextTitle (st.i + 1)] }

/-- Delivery of one chunk during the handshake: `nameHandler` runs while it is
registered. -/
def handshakeData (count : Nat) (st : HandshakeState) (message : JSString) : HandshakeState :=
  if st.listening then nameHandler count st message else st

/-- The handshake over a sequence of chunks. -/
def runHandshake (count : Nat) (chunks : List JSString) : HandshakeState :=
  chunks.foldl (handshakeData count) fetchInputNames

/-! ## handleTallyUpdates -/

/-- The notification prefix `"TALLY OK"`. -/
def tallyOk : JSString :=
  ['T', 'A', 'L', 'L', 'Y', ' ', 'O', 'K']

/-- The `data` listener installed by `handleTallyUpdates(inputNames)`, run on
one chunk: the frames it sends, or the exception it throws. -/
def tallyHandler (inputNames : JSArray) (clients : List Client) (message : JSString) :
    Except JSError (List (Nat × WireMessage)) :=
  if jsStartsWith message tallyOk then
    match (jsSplit message [' '])[2]? with
    | none => Except.error JSError.typeError
    | some token =>
      let trimmed := jsTrim token
      let tallyInput : Int := jsIndexOf '1' (if jsTruthy trimmed then trimmed else []) + 1
      let input :=
        match jsArrayGet inputNames tallyInput with
        | some name => if jsTruthy name then TallyValue.name name else TallyValue.slot tallyInput
        | none => TallyValue.slot tallyInput
      broadcast clients (WireMessage.tally input)
  else
    Except.ok []

/-- The function `handleTallyUpdates(inputNames)`: the `data` listener it
installs and the line it writes. -/
def handleTallyUpdates (inputNames : JSArray) :
    (List Client → JSString → Except JSError (List (Nat × WireMessage))) × List VmixCommand :=
  (tallyHandler inputNames, [VmixCommand.subscribeTally])

/-! ## connectToVmixApi -/

/-- The constant `maxRetryDelay`. -/
def maxRetryDelay : Nat := 60000

/-- The status text of the connect callback. -/
def connectedText : JSString :=
  ['C', 'o', 'n', 'n', 'e', 'c', 't', 'e', 'd', ' ', 't', 'o', ' ', 'v', 'M', 'i', 'x', ' ',
   'A', 'P', 'I']

/-- The status text of the `close` handler: `"vMix connection failed."`. -/
def connectionFailedText : JSString :=
  ['v', 'M', 'i', 'x', ' ', 'c', 'o', 'n', 'n', 'e', 'c', 't', 'i', 'o', 'n', ' ',
   'f', 'a', 'i', 'l', 'e', 'd', '.']

/-- The state `connectToVmixApi` and its handlers work on: the closure
variable `retryDelay`, the globals `isConnected` and `process.exiting`, the
number of `net.connect` calls made, the delays of the
`setTimeout(attemptConnection, ·)` calls made (oldest first), and the frames
delivered to subscribers. -/
structure RelayState where
  retryDelay : Nat
  isConnected : Bool
  exiting : Bool
  attempts : Nat
  timers : List Nat
  sent : List (Nat × WireMessage)
  deriving DecidableEq

/-- The function `attemptConnection`, up to the `net.connect` call. -/
def attemptConnection (st : RelayState) : RelayState :=
  if st.exiting then st else { st with attempts := st.attempts + 1 }

/-- The function `connectToVmixApi`: `retryDelay` starts at 2000 and the first
attempt is made. -/
def connectToVmixApi : RelayState :=
  attemptConnection
    { retryDelay := 2000, isConnected := false, exiting := false, attempts := 0,
      timers := [], sent := [] }

/-- The `net.connect` callback, up to the `await`: `isConnected` is set, the
status frame is fanned out, `retryDelay` is assigned. -/
def onConnect (clients : List Client) (st : RelayState) : Except JSError RelayState :=
  match broadcast clients (WireMessage.message connectedText) with
  | Except.error e => Except.error e
  | Except.ok delivered =>
    Except.ok { st with isConnected := true, sent := st.sent ++ delivered, retryDelay := 5000 }

/-- The `error` handler of the socket. -/
def onError (st : RelayState) : RelayState :=
  if st.exiting then st
  else
    let retryDelay := min (st.retryDelay * 2) maxRetryDelay
    { st with retryDelay := retryDelay, timers := st.timers ++ [retryDelay] }

/-- The `close` handler of the socket. -/
def onClose (clients : List Client) (st : RelayState) : Except JSError RelayState :=
  match broadcast clients (WireMessage.message connectionFailedText) with
  | Except.error e => Except.error e
  | Except.ok delivered =>
    let st1 := { st with isConnected := false, sent := st.sent ++ delivered }
    if st1.exiting then Except.ok st1
    else
      let retryDelay := min (st1.retryDelay * 2) maxRetryDelay
      Except.ok { st1 with retryDelay := retryDelay, timers := st1.timers ++ [retryDelay] }

/-- A connection attempt that fails: Node emits `error` on the socket and
`close` directly after it, so both handlers run, in that order. -/
def failedAttempt (clients : List Client) (st : RelayState) : Except JSError RelayState :=
  onClose clients (onError st)

/-- The state after `k` consecutive runs of the `error` handler. -/
def afterErrors : Nat → RelayState → RelayState
  | 0, st => st
  | k + 1, st => onError (afterErrors k st)

/-! ## The browser client (`vmixActiveTimer.ts`) -/

/-- The text `ws.onmessage` compares `data.message` with:
`"vMix connection closed."`. -/
def connectionClosedText : JSString :=
  ['v', 'M', 'i', 'x', ' ', 'c', 'o', 'n', 'n', 'e', 'c', 't', 'i', 'o', 'n', ' ',
   'c', 'l', 'o', 's', 'e', 'd', '.']

/-- The module state of the client that `ws.onmessage` reads and writes:
`wsConnected`, whether `pollingInterval` holds a timer, `lastActive`,
`activeStartTime`, and the `showMessage` calls made (text and type, oldest
first). -/
structure BrowserState where
  wsConnected : Bool
  polling : Bool
  lastActive : Option TallyValue
  activeStartTime : Nat
  shown : List (TallyValue × JSString)
  deriving DecidableEq

/-- The field `data.message` of a parsed frame. -/
def messageField : WireMessage → Option JSString
  | WireMessage.message text => some text
  | WireMessage.tally _ => none

/-- The field `data.tally` of a parsed frame. -/
def tallyField : WireMessage → Option TallyValue
  | WireMessage.message _ => none
  | WireMessage.tally v => some v

/-- Truthiness of a string or number. -/
def valueTruthy : TallyValue → Bool
  | TallyValue.name s => jsTruthy s
  | TallyValue.slot n => n != 0

/-- The call `showMessage(message, type)`. -/
def showMessage (st : BrowserState) (message : TallyValue) (type : JSString) : BrowserState :=
  { st with shown := st.shown ++ [(message, type)] }

/-- The function `startPolling`. -/
def startPolling (st : BrowserState) : BrowserState :=
  if !st.polling then { st with polling := true } else st

/-- The function `stopPolling`. -/
def stopPolling (st : BrowserState) : BrowserState :=
  let st1 := showMessage st (TallyValue.name []) "default".toList
  if st1.polling then { st1 with polling := false } else st1

/-- The handler `ws.onmessage` on the parsed frame `data`, at time `now`. -/
def onmessage (now : Nat) (st : BrowserState) (data : WireMessage) : BrowserState :=
  if messageField data = some connectionClosedText then
    let st1 := showMessage st
      (TallyValue.name "vMix connection closed, fallback to polling.".toList) "warning".toList
    startPolling { st1 with wsConnected := false }
  else
    let st2 :=
      if !st.wsConnected then
        showMessage (stopPolling { st with wsConnected := true })
          (TallyValue.name "Reconnected to vMix".toList) "default".toList
      else st
    match tallyField data with
    | some currentActive =>
      if valueTruthy currentActive then
        if some currentActive ≠ st2.lastActive then
          showMessage { st2 with lastActive := some currentActive, activeStartTime := now }
            currentActive "default".toList
        else st2
      else st2
    | none => st2

/-- The deliveries a fan-out of `msg` is expected to make: one per subscriber
whose `readyState` is `OPEN`, in iteration order. -/
def openFrames (clients : List Client) (msg : WireMessage) : List (Nat × WireMessage) :=
  (clients.filter (fun c => c.readyState = ReadyState.OPEN)).map (fun c => (c.id, msg))

/-- A response `XMLTEXT OK <payload>`: the success prefix, then the payload
(the name and the line end). -/
def xmltextReply (payload : JSString) : JSString :=
  xmltextOk ++ payload

/-- A payload is well formed when it does not hold the success prefix again
and is not blank: its trimmed form, the name, is not empty. -/
def wellFormedPayload (payload : JSString) : Bool :=
  !jsIncludes xmltextOk payload && jsTruthy (jsTrim payload)

/-- The queries for the slots `first`, ..., `first + n - 1`. -/
def queriesFrom (first : Nat) : Nat → List VmixCommand
  | 0 => []
  | n + 1 => VmixCommand.xmltextTitle first :: queriesFrom (first + 1) n

/-- The state of the handshake that awaits slot `done.length + 1`: the names
`done` of the slots before it are stored and the query for it is written. -/
def awaiting (done : List JSString) : HandshakeState :=
  { inputNames := none :: done.map some, i := done.length + 1, listening := true,
    resolved := none, written := queriesFrom 1 (done.length + 1) }

/-- The state of the handshake once resolved with the names `done`: one
query was written per name, the listener is removed. -/
def resolvedWith (done : List JSString) : HandshakeState :=
  { inputNames := none :: done.map some, i := done.length, listening := false,
    resolved := some (none :: done.map some), written := queriesFrom 1 done.length }

/-! ## Inputs used in the statements below -/

/-- The reply of the mock vMix server to the query for input `k` (one digit):
`XMLTEXT OK Camera k\r\n`. -/
def mockReply (k : Char) : JSString :=
  xmltextOk ++ ['C', 'a', 'm', 'e', 'r', 'a', ' ', k, '\r', '\n']

/-- The first seven replies of the mock server, one chunk each. -/
def sevenReplies : List JSString :=
  [mockReply '1', mockReply '2', mockReply '3', mockReply '4', mockReply '5',
   mockReply '6', mockReply '7']

/-- The directory `fetchInputNames` resolves with on `sevenReplies`. -/
def sevenNames : JSArray :=
  [none, some "Camera 1".toList, some "Camera 2".toList, some "Camera 3".toList,
   some "Camera 4".toList, some "Camera 5".toList, some "Camera 6".toList,
   some "Camera 7".toList]

/-- The banner vMix sends when the connection opens. -/
def versionBanner : JSString :=
  "VERSION OK 25.0.0.1\r\n".toList

/-- The directory `fetchInputNames` resolves with when the banner comes
before the replies: the name of input `k` sits at index `k + 1`. -/
def shiftedNames : JSArray :=
  [none, none, some "Camera 1".toList, some "Camera 2".toList, some "Camera 3".toList,
   some "Camera 4".toList, some "Camera 5".toList, some "Camera 6".toList]

/-- A 4-slot directory (indices 0 to 4) whose only entry is `slot ↦ "Cam B"`. -/
def camBAt (slot : Nat) : JSArray :=
  jsArraySet [none, none, none, none, none] slot "Cam B".toList

/-- Three subscribers, the middle one closed. -/
def threeClients : List Client :=
  [{ id := 10, readyState := ReadyState.OPEN },
   { id := 11, readyState := ReadyState.CLOSED },
   { id := 12, readyState := ReadyState.OPEN }]

/-- A browser session in its normal state: WebSocket up, not polling. -/
def browserUp : BrowserState :=
  { wsConnected := true, polling := false, lastActive := none, activeStartTime := 0,
    shown := [] }

/-! ## The fan-out loop -/

theorem broadcastFrom_eq (msg : WireMessage) (clients : List Client)
    (sent : List (Nat × WireMessage)) :
    broadcastFrom msg clients sent = Except.ok (sent ++ openFrames clients msg) := by
  induction clients generalizing sent with
  | nil => simp [broadcastFrom, openFrames]
  | cons c cs ih =>
    by_cases hc : c.readyState = ReadyState.OPEN
    · simp [broadcastFrom, wsSend, hc, ih, openFrames]
    · simp [broadcastFrom, hc, ih, openFrames]

theorem broadcast_eq (clients : List Client) (msg : WireMessage) :
    broadcast clients msg = Except.ok (openFrames clients msg) := by
  simp [broadcast, broadcastFrom_eq]

theorem openFrames_count_absent (msg : WireMessage) (n : Nat) (clients : List Client)
    (h : n ∉ clients.map Client.id) : (openFrames clients msg).count (n, msg) = 0 := by
  rw [List.count_eq_zero]
  intro hmem
  simp only [openFrames, List.mem_map, List.mem_filter] at hmem
  obtain ⟨c, ⟨hc, _⟩, hcn⟩ := hmem
  apply h
  simp only [List.mem_map]
  exact ⟨c, hc, (Prod.mk.inj hcn).1⟩

theorem openFrames_cons (msg : WireMessage) (d : Client) (ds : List Client) :
    openFrames (d :: ds) msg =
      (if d.readyState = ReadyState.OPEN then [(d.id, msg)] else []) ++ openFrames ds msg := by
  by_cases hd : d.readyState = ReadyState.OPEN <;> simp [openFrames, hd]

theorem openFrames_count (msg : WireMessage) (clients : List Client)
    (hset : (clients.map Client.id).Nodup) (c : Client) (hc : c ∈ clients) :
    (openFrames clients msg).count (c.id, msg) =
      if c.readyState = ReadyState.OPEN then 1 else 0 := by
  induction clients with
  | nil => simp at hc
  | cons d ds ih =>
    rw [List.map_cons, List.nodup_cons] at hset
    rw [openFrames_cons, List.count_append]
    rcases List.mem_cons.mp hc with rfl | hmem
    · rw [openFrames_count_absent msg c.id ds hset.1]
      by_cases ho : c.readyState = ReadyState.OPEN <;> simp [ho]
    · have hne : d.id ≠ c.id := by
        intro heq
        apply hset.1
        rw [heq]
        exact List.mem_map_of_mem Client.id hmem
      rw [ih hset.2 hmem]
      by_cases hd : d.readyState = ReadyState.OPEN <;> simp [hd, hne, List.count_cons]

/-! ## String helpers -/

theorem isPrefixOf_true_append (p s : JSString) (h : p.isPrefixOf s = true) :
    ∃ t, s = p ++ t := by
  induction p generalizing s with
  | nil => exact ⟨s, rfl⟩
  | cons a p ih =>
    cases s with
    | nil => simp [List.isPrefixOf] at h
    | cons b s =>
      simp only [List.isPrefixOf, Bool.and_eq_true, beq_iff_eq] at h
      obtain ⟨t, ht⟩ := ih s h.2
      exact ⟨t, by rw [h.1, ht]; rfl⟩

theorem isPrefixOf_append_self (p t : JSString) : p.isPrefixOf (p ++ t) = true := by
  induction p with
  | nil => simp [List.isPrefixOf]
  | cons a p ih => simp [List.isPrefixOf, ih]

theorem jsIncludes_false (sep s : JSString) (h : jsIncludes sep s = false) :
    ∀ pre post, s ≠ pre ++ sep ++ post := by
  induction s with
  | nil =>
    intro pre post heq
    have hsep : sep = [] := by
      have hl := congrArg List.length heq
      simp only [List.length_nil, List.length_append] at hl
      exact List.eq_nil_of_length_eq_zero (by omega)
    subst hsep
    simp [jsIncludes, List.isPrefixOf] at h
  | cons c cs ih =>
    simp only [jsIncludes, Bool.or_eq_false_iff] at h
    intro pre post heq
    cases pre with
    | nil =>
      have hp := isPrefixOf_append_self sep post
      rw [List.nil_append] at heq
      rw [← heq, h.1] at hp
      exact Bool.noConfusion hp
    | cons a pre =>
      have hcs : cs = pre ++ sep ++ post := by
        simpa using (List.cons.inj heq).2
      exact ih h.2 pre post hcs

theorem jsSplitGo_absent (sep : JSString) (s : JSString)
    (hno : ∀ pre post, s ≠ pre ++ sep ++ post) : jsSplitGo sep s 0 = [s] := by
  induction s with
  | nil => rfl
  | cons c cs ih =>
    have hpre : sep.isPrefixOf (c :: cs) = false := by
      cases hp : sep.isPrefixOf (c :: cs) with
      | false => rfl
      | true =>
        obtain ⟨t, ht⟩ := isPrefixOf_true_append sep (c :: cs) hp
        exact absurd (by simpa using ht) (hno [] t)
    have hcs : ∀ pre post, cs ≠ pre ++ sep ++ post := by
      intro pre post heq
      exact hno (c :: pre) post (by rw [heq]; rfl)
    simp [jsSplitGo, hpre, ih hcs]

theorem jsSplitGo_space_word (w r : JSString) (hw : ' ' ∉ w) :
    jsSplitGo [' '] (w ++ ' ' :: r) 0 = w :: jsSplitGo [' '] r 0 := by
  induction w with
  | nil => simp [jsSplitGo, List.isPrefixOf]
  | cons a w ih =>
    have ha : ' ' ≠ a := fun h => hw (by rw [h]; exact List.mem_cons_self a w)
    have hw1 : ' ' ∉ w := fun h => hw (List.mem_cons_of_mem a h)
    simp [jsSplitGo, List.isPrefixOf, ha, ih hw1]

theorem jsSplitGo_space_first (s : JSString) :
    ∃ rest, jsSplitGo [' '] s 0 = s.takeWhile (fun c => c != ' ') :: rest := by
  induction s with
  | nil => exact ⟨[], rfl⟩
  | cons a s ih =>
    obtain ⟨rest, hrest⟩ := ih
    by_cases ha : a = ' '
    · subst ha
      exact ⟨jsSplitGo [' '] s 0, by simp [jsSplitGo, List.isPrefixOf]⟩
    · have ha1 : ' ' ≠ a := fun h => ha h.symm
      exact ⟨rest, by simp [jsSplitGo, List.isPrefixOf, ha1, ha, hrest]⟩

theorem jsSplit_tally_line (r : JSString) :
    (jsSplit (tallyOk ++ ' ' :: r) [' '])[2]? = some (r.takeWhile (fun c => c != ' ')) := by
  obtain ⟨rest, hrest⟩ := jsSplitGo_space_first r
  have h1 : tallyOk ++ ' ' :: r = ['T', 'A', 'L', 'L', 'Y'] ++ ' ' :: (['O', 'K'] ++ ' ' :: r) := rfl
  rw [jsSplit, h1, jsSplitGo_space_word _ _ (by decide), jsSplitGo_space_word _ _ (by decide),
    hrest]
  simp

theorem jsStartsWith_tally_line (r : JSString) : jsStartsWith (tallyOk ++ r) tallyOk = true :=
  isPrefixOf_append_self tallyOk r

theorem dropWhile_of_head (p : Char → Bool) (l : JSString) (h : ∀ a ∈ l.head?, p a = false) :
    l.dropWhile p = l := by
  cases l with
  | nil => rfl
  | cons a l =>
    have ha : p a = false := h a (by simp)
    simp [List.dropWhile, ha]

theorem jsTrim_line (m e : JSString) (hhead : ∀ a ∈ m.head?, isJSWhitespace a = false)
    (hlast : ∀ a ∈ m.getLast?, isJSWhitespace a = false)
    (he : ∀ a ∈ e, isJSWhitespace a = true) : jsTrim (m ++ e) = m := by
  cases m with
  | nil =>
    have h0 : List.dropWhile isJSWhitespace e = [] := List.dropWhile_eq_nil_iff.mpr he
    simp [jsTrim, h0]
  | cons a m =>
    have h1 : List.dropWhile isJSWhitespace (a :: m ++ e) = a :: m ++ e :=
      dropWhile_of_head _ _ (by simpa using hhead)
    have h2 : List.dropWhile isJSWhitespace (e.reverse ++ (a :: m).reverse) = (a :: m).reverse := by
      rw [List.dropWhile_append_of_pos (by simpa using he)]
      apply dropWhile_of_head
      intro x hx
      rw [List.head?_reverse] at hx
      exact hlast x hx
    rw [jsTrim, h1, List.reverse_append, h2, List.reverse_reverse]

theorem mem_jsTrim (c : Char) (s : JSString) (h : c ∈ jsTrim s) : c ∈ s := by
  rw [jsTrim, List.mem_reverse] at h
  have h1 := (List.dropWhile_sublist isJSWhitespace).mem h
  rw [List.mem_reverse] at h1
  exact (List.dropWhile_sublist isJSWhitespace).mem h1

theorem jsIndexOf_absent (c : Char) (s : JSString) (h : c ∉ s) : jsIndexOf c s = -1 := by
  induction s with
  | nil => rfl
  | cons d s ih =>
    have hd : d ≠ c := fun heq => h (by simp [heq])
    have hs : c ∉ s := fun hmem => h (by simp [hmem])
    simp [jsIndexOf, hd, ih hs]

theorem jsIndexOf_first (c : Char) (pre post : JSString) (h : c ∉ pre) :
    jsIndexOf c (pre ++ c :: post) = (utf16Length pre : Int) := by
  induction pre with
  | nil => simp [jsIndexOf, utf16Length]
  | cons d pre ih =>
    have hd : d ≠ c := fun heq => h (by simp [heq])
    have hs : c ∉ pre := fun hmem => h (by simp [hmem])
    have hnn : ¬ ((utf16Length pre : Int) < 0) := by omega
    simp [jsIndexOf, hd, ih hs, hnn, utf16Length]

theorem jsArrayGet_nat (a : JSArray) (n : Nat) :
    jsArrayGet a (n : Int) = (a[n]?).getD none := by
  have hnn : ¬ ((n : Int) < 0) := by omega
  simp [jsArrayGet, hnn]

theorem tallyHandler_line (inputNames : JSArray) (clients : List Client) (r : JSString) :
    tallyHandler inputNames clients (tallyOk ++ ' ' :: r) =
      broadcast clients (WireMessage.tally
        (match jsArrayGet inputNames
            (jsIndexOf '1'
              (if jsTruthy (jsTrim (r.takeWhile (fun c => c != ' '))) then
                jsTrim (r.takeWhile (fun c => c != ' ')) else []) + 1) with
          | some name =>
            if jsTruthy name then TallyValue.name name
            else TallyValue.slot (jsIndexOf '1'
              (if jsTruthy (jsTrim (r.takeWhile (fun c => c != ' '))) then
                jsTrim (r.takeWhile (fun c => c != ' ')) else []) + 1)
          | none => TallyValue.slot (jsIndexOf '1'
              (if jsTruthy (jsTrim (r.takeWhile (fun c => c != ' '))) then
                jsTrim (r.takeWhile (fun c => c != ' ')) else []) + 1))) := by
  simp only [tallyHandler, jsStartsWith_tally_line, jsSplit_tally_line, if_true]

/-! ## The handshake keeps index 0 empty -/

theorem jsArraySet_zero (a : JSArray) (i : Nat) (v : JSString) (hi : 1 ≤ i)
    (h0 : jsArrayGet a 0 = none) : jsArrayGet (jsArraySet a i v) 0 = none := by
  have key : ∀ b : JSArray, jsArrayGet b 0 = (b[0]?).getD none := fun b => jsArrayGet_nat b 0
  rw [key] at h0 ⊢
  unfold jsArraySet
  split
  · rw [List.getElem?_set_ne (by omega)]
    exact h0
  · cases a with
    | nil =>
      obtain ⟨j, rfl⟩ : ∃ j, i = j + 1 := ⟨i - 1, by omega⟩
      simp [List.replicate]
    | cons x a => simpa using h0

theorem nameHandler_zero (count : Nat) (st : HandshakeState) (message : JSString)
    (hi : 1 ≤ st.i) (h0 : jsArrayGet st.inputNames 0 = none) :
    1 ≤ (nameHandler count st message).i ∧
      jsArrayGet (nameHandler count st message).inputNames 0 = none := by
  have hnames : ∀ o : Option JSString,
      jsArrayGet
        (match o with
          | some name =>
            if jsTruthy name then jsArraySet st.inputNames st.i name else st.inputNames
          | none => st.inputNames) 0 = none := by
    intro o
    cases o with
    | none => exact h0
    | some name =>
      dsimp only
      split
      · exact jsArraySet_zero st.inputNames st.i name hi h0
      · exact h0
  unfold nameHandler
  dsimp only
  split_ifs
  · exact ⟨hi, hnames _⟩
  · exact ⟨Nat.le_add_left 1 st.i, hnames _⟩

theorem handshake_zero (count : Nat) (chunks : List JSString) (st : HandshakeState)
    (hi : 1 ≤ st.i) (h0 : jsArrayGet st.inputNames 0 = none) :
    jsArrayGet (chunks.foldl (handshakeData count) st).inputNames 0 = none := by
  induction chunks generalizing st with
  | nil => exact h0
  | cons c cs ih =>
    rw [List.foldl_cons]
    by_cases hl : st.listening = true
    · have h := nameHandler_zero count st c hi h0
      simp only [handshakeData, hl, if_true]
      exact ih _ h.1 h.2
    · simp only [handshakeData, hl]
      exact ih _ hi h0

/-- Whatever the slot count and the chunks received, the directory of
`fetchInputNames` has no entry at index 0. -/
theorem runHandshake_zero (count : Nat) (chunks : List JSString) :
    jsArrayGet (runHandshake count chunks).inputNames 0 = none :=
  handshake_zero count chunks fetchInputNames (by decide) (by decide)

/-! ## The handshake on well-formed replies -/

theorem jsSplitGo_skip (sep a r : JSString) :
    jsSplitGo sep (a ++ r) a.length = jsSplitGo sep r 0 := by
  induction a with
  | nil => simp
  | cons x a ih => simpa [jsSplitGo] using ih

theorem jsSplit_reply (payload : JSString) (h : jsIncludes xmltextOk payload = false) :
    jsSplit (xmltextReply payload) xmltextOk = [[], payload] := by
  have h1 : xmltextReply payload =
      'X' :: (['M', 'L', 'T', 'E', 'X', 'T', ' ', 'O', 'K', ' '] ++ payload) := rfl
  have hp : xmltextOk.isPrefixOf
      ('X' :: (['M', 'L', 'T', 'E', 'X', 'T', ' ', 'O', 'K', ' '] ++ payload)) = true := by
    rw [← h1]
    exact isPrefixOf_append_self _ _
  have hlen : xmltextOk.length - 1 = ['M', 'L', 'T', 'E', 'X', 'T', ' ', 'O', 'K', ' '].length :=
    rfl
  rw [jsSplit, h1, jsSplitGo, if_pos hp, hlen, jsSplitGo_skip,
    jsSplitGo_absent _ _ (jsIncludes_false _ _ h)]

theorem nameHandler_reply (count : Nat) (st : HandshakeState) (payload : JSString)
    (hwf : wellFormedPayload payload = true) :
    nameHandler count st (xmltextReply payload) =
      if (jsArraySet st.inputNames st.i (jsTrim payload)).length = count then
        { st with inputNames := jsArraySet st.inputNames st.i (jsTrim payload),
                  listening := false,
                  resolved := some (jsArraySet st.inputNames st.i (jsTrim payload)) }
      else
        { st with inputNames := jsArraySet st.inputNames st.i (jsTrim payload),
                  i := st.i + 1,
                  written := st.written ++ [VmixCommand.xmltextTitle (st.i + 1)] } := by
  simp only [wellFormedPayload, Bool.and_eq_true, Bool.not_eq_true'] at hwf
  simp [nameHandler, jsSplit_reply payload hwf.1, hwf.2]

theorem queriesFrom_succ (first n : Nat) :
    queriesFrom first n ++ [VmixCommand.xmltextTitle (first + n)] = queriesFrom first (n + 1) := by
  induction n generalizing first with
  | zero => rfl
  | succ n ih =>
    have h := ih (first + 1)
    rw [show first + 1 + n = first + (n + 1) by omega] at h
    rw [queriesFrom, List.cons_append, h]
    rfl

theorem jsArraySet_next (done : List JSString) (v : JSString) :
    jsArraySet (none :: done.map some) (done.length + 1) v = none :: (done ++ [v]).map some := by
  simp [jsArraySet]

theorem handshakeData_awaiting (count : Nat) (done : List JSString) (payload : JSString)
    (hwf : wellFormedPayload payload = true) :
    handshakeData count (awaiting done) (xmltextReply payload) =
      if done.length + 2 = count then resolvedWith (done ++ [jsTrim payload])
      else awaiting (done ++ [jsTrim payload]) := by
  have hq := queriesFrom_succ 1 (done.length + 1)
  rw [show 1 + (done.length + 1) = done.length + 1 + 1 by omega] at hq
  have hstep : handshakeData count (awaiting done) (xmltextReply payload)
      = nameHandler count (awaiting done) (xmltextReply payload) := rfl
  rw [hstep, nameHandler_reply count _ payload hwf]
  simp only [awaiting, jsArraySet_next, resolvedWith, List.length_cons, List.length_map,
    List.length_append, List.length_singleton, hq]
  rfl

theorem handshakeData_first (count : Nat) (payload : JSString)
    (hwf : wellFormedPayload payload = true) :
    handshakeData count fetchInputNames (xmltextReply payload) =
      if 2 = count then resolvedWith [jsTrim payload] else awaiting [jsTrim payload] := by
  have hstep : handshakeData count fetchInputNames (xmltextReply payload)
      = nameHandler count fetchInputNames (xmltextReply payload) := rfl
  rw [hstep, nameHandler_reply count _ payload hwf]
  rfl

theorem handshake_awaiting (count : Nat) (payloads done : List JSString)
    (hwf : ∀ p ∈ payloads, wellFormedPayload p = true)
    (hshort : ∀ k, k < payloads.length → done.length + 2 + k ≠ count) :
    (payloads.map xmltextReply).foldl (handshakeData count) (awaiting done) =
      awaiting (done ++ payloads.map jsTrim) := by
  induction payloads generalizing done with
  | nil => simp
  | cons p ps ih =>
    have hp : wellFormedPayload p = true := hwf p (List.mem_cons_self p ps)
    have h0 : done.length + 2 ≠ count := by
      have := hshort 0 (by simp)
      omega
    rw [List.map_cons, List.foldl_cons, handshakeData_awaiting count done p hp, if_neg h0,
      ih (done ++ [jsTrim p]) (fun q hq => hwf q (List.mem_cons_of_mem p hq))]
    · simp
    · intro k hk
      have := hshort (k + 1) (by simpa using hk)
      simp only [List.length_append, List.length_singleton]
      omega

theorem handshake_resolves (count : Nat) (payloads done : List JSString)
    (hwf : ∀ p ∈ payloads, wellFormedPayload p = true) (hne : payloads ≠ [])
    (hlen : done.length + payloads.length + 1 = count) :
    (payloads.map xmltextReply).foldl (handshakeData count) (awaiting done) =
      resolvedWith (done ++ payloads.map jsTrim) := by
  induction payloads generalizing done with
  | nil => exact absurd rfl hne
  | cons p ps ih =>
    have hp : wellFormedPayload p = true := hwf p (List.mem_cons_self p ps)
    rw [List.map_cons, List.foldl_cons, handshakeData_awaiting count done p hp]
    cases ps with
    | nil =>
      have h2 : done.length + 2 = count := by simpa using hlen
      rw [if_pos h2]
      rfl
    | cons q qs =>
      have h2 : done.length + 2 ≠ count := by
        simp only [List.length_cons] at hlen
        omega
      rw [if_neg h2, ih (done ++ [jsTrim p]) (fun r hr => hwf r (List.mem_cons_of_mem p hr))
        (by simp)]
      · simp
      · simp only [List.length_append, List.length_cons, List.length_nil] at hlen ⊢
        omega

/-- The handshake for an arbitrary slot count, on well-formed replies only.
While fewer than `count - 1` replies have come the promise is pending and
the next slot is awaited; the reply number `count - 1` resolves it, with the
names of the slots 1 to `count - 1` and one query written per name, so slot
`count` is never queried; for `count ≤ 1` it never resolves. -/
theorem runHandshake_wellFormed (count : Nat) (p : JSString) (ps : List JSString)
    (hwf : ∀ q ∈ p :: ps, wellFormedPayload q = true) :
    (ps.length + 2 < count →
      runHandshake count ((p :: ps).map xmltextReply) = awaiting ((p :: ps).map jsTrim)) ∧
    (ps.length + 2 = count →
      runHandshake count ((p :: ps).map xmltextReply) = resolvedWith ((p :: ps).map jsTrim)) ∧
    (count ≤ 1 →
      runHandshake count ((p :: ps).map xmltextReply) = awaiting ((p :: ps).map jsTrim)) := by
  have hp : wellFormedPayload p = true := hwf p (List.mem_cons_self p ps)
  have hps : ∀ q ∈ ps, wellFormedPayload q = true := fun q hq => hwf q (List.mem_cons_of_mem p hq)
  have hrun : runHandshake count ((p :: ps).map xmltextReply) =
      (ps.map xmltextReply).foldl (handshakeData count)
        (if 2 = count then resolvedWith [jsTrim p] else awaiting [jsTrim p]) := by
    rw [runHandshake, List.map_cons, List.foldl_cons, handshakeData_first count p hp]
  refine ⟨?_, ?_, ?_⟩
  · intro h
    rw [hrun, if_neg (by omega), handshake_awaiting count ps [jsTrim p] hps]
    · rfl
    · intro k hk
      simp only [List.length_singleton]
      omega
  · intro h
    cases ps with
    | nil =>
      rw [hrun, if_pos (by simp only [List.length_nil] at h; omega)]
      rfl
    | cons q qs =>
      rw [hrun, if_neg (by simp only [List.length_cons] at h; omega),
        handshake_resolves count (q :: qs) [jsTrim p] hps (by simp)]
      · rfl
      · simp only [List.length_cons, List.length_nil] at h ⊢
        omega
  · intro h
    rw [hrun, if_neg (by omega), handshake_awaiting count ps [jsTrim p] hps]
    · rfl
    · intro k _
      simp only [List.length_singleton]
      omega

/-! ## The handshake on a chunk without the success prefix -/

/-- For every chunk that does not contain `XMLTEXT OK `, and every state of
the handshake, `nameHandler` stores no name; unless the directory length
already equals the slot count (then the promise resolves and nothing is
written), the awaited index advances by one and the query for the next slot
is written. -/
theorem nameHandler_absent (count : Nat) (st : HandshakeState) (chunk : JSString)
    (hno : ∀ pre post, chunk ≠ pre ++ xmltextOk ++ post) :
    nameHandler count st chunk =
      if st.inputNames.length = count then
        { st with listening := false, resolved := some st.inputNames }
      else
        { st with i := st.i + 1,
                  written := st.written ++ [VmixCommand.xmltextTitle (st.i + 1)] } := by
  simp [nameHandler, jsSplit, jsSplitGo_absent xmltextOk chunk hno]

/-! ## The back-off state -/

theorem onError_running (st : RelayState) (h : st.exiting = false) :
    onError st =
      { st with retryDelay := min (st.retryDelay * 2) 60000,
                timers := st.timers ++ [min (st.retryDelay * 2) 60000] } := by
  simp [onError, h, maxRetryDelay]

theorem afterErrors_connectToVmixApi (k : Nat) :
    (afterErrors k connectToVmixApi).retryDelay = min (2000 * 2 ^ k) 60000 ∧
    (afterErrors k connectToVmixApi).exiting = false := by
  induction k with
  | zero => decide
  | succ k ih =>
    obtain ⟨hd, he⟩ := ih
    have hp : 2 ^ (k + 1) = 2 ^ k * 2 := pow_succ 2 k
    rw [afterErrors, onError_running _ he, hp]
    refine ⟨?_, he⟩
    show min ((afterErrors k connectToVmixApi).retryDelay * 2) 60000 = _
    rw [hd]
    generalize 2 ^ k = x
    omega

/-! ## Properties -/

/-- C8 (fan-out). For every set of subscribers (a list without repeated
client) and every frame, the fan-out loop completes without an exception and
delivers the frame exactly once to each subscriber whose `readyState` is
`OPEN`, and to nobody else; so the number of deliveries is the number of open
subscribers (2 for 3 subscribers of which 1 is not ready). -/
theorem broadcast_reaches_exactly_open (clients : List Client) (msg : WireMessage)
    (hset : (clients.map Client.id).Nodup) :
    ∃ frames, broadcast clients msg = Except.ok frames ∧
      (∀ c ∈ clients,
        frames.count (c.id, msg) = if c.readyState = ReadyState.OPEN then 1 else 0) ∧
      (∀ f ∈ frames, f.2 = msg ∧ ∃ c ∈ clients, c.id = f.1 ∧ c.readyState = ReadyState.OPEN) ∧
      frames.length = clients.countP (fun c => c.readyState = ReadyState.OPEN) := by
  refine ⟨openFrames clients msg, broadcast_eq clients msg, ?_, ?_, ?_⟩
  · intro c hc
    exact openFrames_count msg clients hset c hc
  · intro f hf
    simp only [openFrames, List.mem_map, List.mem_filter] at hf
    obtain ⟨c, ⟨hc, ho⟩, rfl⟩ := hf
    exact ⟨rfl, c, hc, rfl, by simpa using ho⟩
  · simp [openFrames, List.countP_eq_length_filter]

/-- C8 at three subscribers of which the middle one is closed: the frame goes
to the two others, once each, and the loop completes. -/
theorem broadcast_reaches_exactly_open_witness :
    (threeClients.map Client.id).Nodup ∧
    ∃ frames, broadcast threeClients (WireMessage.tally (TallyValue.slot 3)) = Except.ok frames ∧
      (∀ c ∈ threeClients,
        frames.count (c.id, WireMessage.tally (TallyValue.slot 3))
          = if c.readyState = ReadyState.OPEN then 1 else 0) ∧
      (∀ f ∈ frames, f.2 = WireMessage.tally (TallyValue.slot 3) ∧
        ∃ c ∈ threeClients, c.id = f.1 ∧ c.readyState = ReadyState.OPEN) ∧
      frames.length = threeClients.countP (fun c => c.readyState = ReadyState.OPEN) :=
  ⟨by decide, broadcast_reaches_exactly_open threeClients _ (by decide)⟩


/-- C4 (the handler throws on a notification without a third token). On the
chunk `TALLY OK\r\n`, and on `TALLY OK` alone, `message.split(" ")[2]` is
`undefined` and the `.trim()` call throws a `TypeError`, whatever the
directory and the subscribers: the handler does not complete. -/
theorem tallyHandler_throws_without_mask (inputNames : JSArray) (clients : List Client) :
    tallyHandler inputNames clients "TALLY OK\r\n".toList = Except.error JSError.typeError ∧
    tallyHandler inputNames clients "TALLY OK".toList = Except.error JSError.typeError :=
  ⟨rfl, rfl⟩

/-- C10, as stated, fails: against the 4-slot directory whose only entry is
slot 2 ↦ "Cam B", the line `TALLY OK 0010` yields `{tally: 3}`, not
`{tally: "Cam B"}`. -/
theorem tally_0010_slot2_not_camB :
    tallyHandler (camBAt 2) [{ id := 0, readyState := ReadyState.OPEN }]
        "TALLY OK 0010\r\n".toList
      = Except.ok [(0, WireMessage.tally (TallyValue.slot 3))] ∧
    tallyHandler (camBAt 2) [{ id := 0, readyState := ReadyState.OPEN }]
        "TALLY OK 0010\r\n".toList
      ≠ Except.ok [(0, WireMessage.tally (TallyValue.name "Cam B".toList))] := by
  decide

/-- C10, amended. The line `TALLY OK 0010` (with or without its CRLF) is
decoded to slot 3: against the 4-slot directory whose only entry is
slot 3 ↦ "Cam B" it yields `{tally: "Cam B"}`; against the directory whose only
entry is slot 2 ↦ "Cam B", and against the empty directory, it yields
`{tally: 3}`. -/
theorem tally_0010_decodes_slot3 :
    tallyHandler (camBAt 3) [{ id := 0, readyState := ReadyState.OPEN }]
        "TALLY OK 0010\r\n".toList
      = Except.ok [(0, WireMessage.tally (TallyValue.name "Cam B".toList))] ∧
    tallyHandler (camBAt 2) [{ id := 0, readyState := ReadyState.OPEN }]
        "TALLY OK 0010\r\n".toList
      = Except.ok [(0, WireMessage.tally (TallyValue.slot 3))] ∧
    tallyHandler [] [{ id := 0, readyState := ReadyState.OPEN }] "TALLY OK 0010\r\n".toList
      = Except.ok [(0, WireMessage.tally (TallyValue.slot 3))] ∧
    tallyHandler (camBAt 3) [{ id := 0, readyState := ReadyState.OPEN }] "TALLY OK 0010".toList
      = Except.ok [(0, WireMessage.tally (TallyValue.name "Cam B".toList))] ∧
    tallyHandler (camBAt 2) [{ id := 0, readyState := ReadyState.OPEN }] "TALLY OK 0010".toList
      = Except.ok [(0, WireMessage.tally (TallyValue.slot 3))] ∧
    tallyHandler [] [{ id := 0, readyState := ReadyState.OPEN }] "TALLY OK 0010".toList
      = Except.ok [(0, WireMessage.tally (TallyValue.slot 3))] := by
  decide

/-- C3, as stated, fails: on `TALLY OK 0000` the handler sends the frame
`{tally: 0}` to the open subscriber, against the empty directory and against
a directory built by the handshake alike. -/
theorem tally_0000_sends_zero :
    tallyHandler [] [{ id := 0, readyState := ReadyState.OPEN }] "TALLY OK 0000\r\n".toList
      = Except.ok [(0, WireMessage.tally (TallyValue.slot 0))] ∧
    tallyHandler sevenNames [{ id := 0, readyState := ReadyState.OPEN }]
        "TALLY OK 0000\r\n".toList
      = Except.ok [(0, WireMessage.tally (TallyValue.slot 0))] ∧
    tallyHandler [] [{ id := 0, readyState := ReadyState.OPEN }] "TALLY OK 0000\r\n".toList
      ≠ Except.ok [] := by
  decide

/-- C7 (a chunk without the success prefix is counted as a reply). The
banner `VERSION OK 25.0.0.1\r\n`, which does not contain `XMLTEXT OK `,
arrives while slot 1 is awaited: no name is stored, yet the awaited index
advances to 2 and the query for slot 2 is written. The reply to the query for
slot 1 that follows is stored at index 2, and after six replies the promise
resolves with every name one slot too high and none for slot 1: a tally for
slot 2 is reported as `Camera 1`, a tally for slot 1 by its number. -/
theorem nameHandler_banner_shifts_names :
    jsIncludes xmltextOk versionBanner = false ∧
    nameHandler inputCount fetchInputNames versionBanner
      = { inputNames := [], i := 2, listening := true, resolved := none,
          written := [VmixCommand.xmltextTitle 1, VmixCommand.xmltextTitle 2] } ∧
    (runHandshake inputCount [versionBanner, mockReply '1']).inputNames
      = [none, none, some "Camera 1".toList] ∧
    runHandshake inputCount (versionBanner :: sevenReplies.take 6)
      = { inputNames := shiftedNames, i := 7, listening := false,
          resolved := some shiftedNames, written := queriesFrom 1 7 } ∧
    (handleTallyUpdates shiftedNames).1 [{ id := 0, readyState := ReadyState.OPEN }]
        "TALLY OK 01000000\r\n".toList
      = Except.ok [(0, WireMessage.tally (TallyValue.name "Camera 1".toList))] ∧
    (handleTallyUpdates shiftedNames).1 [{ id := 0, readyState := ReadyState.OPEN }]
        "TALLY OK 10000000\r\n".toList
      = Except.ok [(0, WireMessage.tally (TallyValue.slot 1))] := by
  decide

/-- C5 (the first retry is delayed by 4000 ms, and a failed attempt takes two
steps). From a fresh `connectToVmixApi`, the delay scheduled by the k-th
consecutive run of the `error` handler is `min(2000 * 2^k, 60000)`: the
sequence is 4000, 8000, 16000, 32000, 60000, 60000, not 2000, 4000, ...; and
one refused connection, on which `error` then `close` fire, schedules two
reconnects, after 4000 ms and after 8000 ms, leaving `retryDelay` at 8000. -/
theorem backoff_first_delay_is_4000 :
    (∀ k, (afterErrors (k + 1) connectToVmixApi).timers.getLast?
        = some (min (2000 * 2 ^ (k + 1)) 60000)) ∧
    (afterErrors 6 connectToVmixApi).timers = [4000, 8000, 16000, 32000, 60000, 60000] ∧
    (∀ clients, failedAttempt clients connectToVmixApi =
      Except.ok { retryDelay := 8000, isConnected := false, exiting := false, attempts := 1,
                  timers := [4000, 8000],
                  sent := openFrames clients (WireMessage.message connectionFailedText) }) := by
  refine ⟨?_, by decide, ?_⟩
  · intro k
    obtain ⟨hd, he⟩ := afterErrors_connectToVmixApi k
    have hp : 2 ^ (k + 1) = 2 ^ k * 2 := pow_succ 2 k
    rw [afterErrors, onError_running _ he, hp, hd]
    simp only [List.getLast?_append, List.getLast?_singleton, Option.or_some]
    congr 1
    generalize 2 ^ k = x
    omega
  · intro clients
    simp [failedAttempt, onClose, broadcast_eq, onError, connectToVmixApi, attemptConnection,
      maxRetryDelay]

/-- C6 (the connect callback sets `retryDelay` to 5000, not to the start
value). `retryDelay` starts at 2000; whatever the state before, the connect
callback completes and leaves `retryDelay = 5000`, so that the failure that
follows schedules its reconnect after 10000 ms instead of 4000 ms. -/
theorem onConnect_sets_retryDelay_5000 (clients : List Client) (st : RelayState) :
    connectToVmixApi.retryDelay = 2000 ∧
    (onError connectToVmixApi).timers.getLast? = some 4000 ∧
    ∃ st1, onConnect clients st = Except.ok st1 ∧ st1.retryDelay = 5000 ∧
      (onError { st1 with exiting := false }).timers.getLast? = some 10000 := by
  refine ⟨by decide, by decide, ?_⟩
  simp [onConnect, broadcast_eq, onError, maxRetryDelay]

/-- C9 (the outage frame is not the one the client looks for). The `close`
handler delivers `{message: "vMix connection failed."}` to the open
subscribers, while `ws.onmessage` tests for `"vMix connection closed."`: on
the frame actually sent the client, in any state, ends with `wsConnected`
true and does not start polling; a client that was up is left unchanged. -/
theorem close_frame_not_recognised (clients : List Client) (st : RelayState) (now : Nat)
    (bst : BrowserState) :
    (∃ st1, onClose clients st = Except.ok st1 ∧
      st1.sent = st.sent ++ openFrames clients (WireMessage.message connectionFailedText)) ∧
    connectionFailedText ≠ connectionClosedText ∧
    (onmessage now bst (WireMessage.message connectionFailedText)).wsConnected = true ∧
    (onmessage now bst (WireMessage.message connectionFailedText)).polling
      = (bst.wsConnected && bst.polling) ∧
    onmessage now browserUp (WireMessage.message connectionFailedText) = browserUp ∧
    (onmessage now browserUp (WireMessage.message connectionClosedText)).wsConnected = false ∧
    (onmessage now browserUp (WireMessage.message connectionClosedText)).polling = true := by
  refine ⟨?_, by decide, ?_, ?_, rfl, rfl, rfl⟩
  · by_cases he : st.exiting = true <;> simp [onClose, broadcast_eq, he]
  · cases hw : bst.wsConnected <;> cases hp : bst.polling <;>
      simp [onmessage, messageField, tallyField, connectionFailedText, connectionClosedText,
        hw, hp, showMessage, stopPolling]
  · cases hw : bst.wsConnected <;> cases hp : bst.polling <;>
      simp [onmessage, messageField, tallyField, connectionFailedText, connectionClosedText,
        hw, hp, showMessage, stopPolling]

/-- C2 (first `1` wins, directory lookup with fallback). The mask is
`pre ++ '1' :: post` with no `1` in `pre` and no whitespace in it; the line may
end with any whitespace (`\r\n`, or nothing). With `s` the 1-indexed position
of that first `1` (in UTF-16 units, as JavaScript counts: `pre.length + 1` for
a mask of digits), the handler completes and delivers to every open subscriber
the event `{tally: v}`, where `v` is the directory's name for slot `s` when
the directory holds a (non-empty) name there, and the number `s` when the
directory is empty, `s` is out of range or the entry is missing. -/
theorem tallyHandler_first_one (inputNames : JSArray) (clients : List Client)
    (pre post eol : JSString) (hfirst : '1' ∉ pre)
    (hmask : ∀ c ∈ pre ++ '1' :: post, isJSWhitespace c = false)
    (heol : ∀ c ∈ eol, isJSWhitespace c = true) :
    tallyHandler inputNames clients (tallyOk ++ ' ' :: ((pre ++ '1' :: post) ++ eol)) =
      Except.ok (openFrames clients (WireMessage.tally
        (match inputNames[utf16Length pre + 1]? with
          | some (some name) =>
            if name = [] then TallyValue.slot ((utf16Length pre + 1 : Nat) : Int)
            else TallyValue.name name
          | _ => TallyValue.slot ((utf16Length pre + 1 : Nat) : Int)))) := by
  have hsp : ∀ a ∈ pre ++ '1' :: post, (a != ' ') = true := by
    intro a ha
    have hws := hmask a ha
    rw [bne_iff_ne]
    intro heq
    rw [heq] at hws
    exact absurd hws (by decide)
  have hne : pre ++ '1' :: post ≠ [] := by simp
  have htrim : jsTrim ((pre ++ '1' :: post) ++ eol.takeWhile (fun c => c != ' '))
      = pre ++ '1' :: post :=
    jsTrim_line _ _ (fun a ha => hmask a (List.mem_of_mem_head? ha))
      (fun a ha => hmask a (List.mem_of_mem_getLast? ha))
      (fun a ha => heol a ((List.takeWhile_sublist _).mem ha))
  have htruthy : jsTruthy (pre ++ '1' :: post) = true := by
    cases pre <;> rfl
  have hcast : (utf16Length pre : Int) + 1 = ((utf16Length pre + 1 : Nat) : Int) := by
    push_cast
    rfl
  rw [tallyHandler_line, List.takeWhile_append_of_pos hsp, htrim]
  simp only [htruthy, if_true, jsIndexOf_first '1' pre post hfirst, hcast, jsArrayGet_nat,
    broadcast_eq]
  congr 3
  rcases h : inputNames[utf16Length pre + 1]? with _ | _ | name
  · rfl
  · rfl
  · cases name <;> simp [jsTruthy]

/-- C2 at the line `TALLY OK 0110\r\n` (two `1`s: the first one, at
position 2, decides), the directory of the seven mock names and three
subscribers: the two open ones receive `{tally: "Camera 2"}`. -/
theorem tallyHandler_first_one_witness :
    '1' ∉ ['0'] ∧
    (∀ c ∈ ['0'] ++ '1' :: ['1', '0'], isJSWhitespace c = false) ∧
    (∀ c ∈ ['\r', '\n'], isJSWhitespace c = true) ∧
    tallyHandler sevenNames threeClients "TALLY OK 0110\r\n".toList =
      Except.ok [(10, WireMessage.tally (TallyValue.name "Camera 2".toList)),
                 (12, WireMessage.tally (TallyValue.name "Camera 2".toList))] :=
  ⟨by decide, by decide, by decide,
   tallyHandler_first_one sevenNames threeClients ['0'] ['1', '0'] ['\r', '\n'] (by decide)
    (by decide) (by decide)⟩

/-- C3, amended. For every line `TALLY OK <rest>` whose remainder holds no
`1` (the mask and the line end), and every directory with no entry at index 0
(every directory `fetchInputNames` builds is one), the handler completes and
delivers the event `{tally: 0}` to every open subscriber. -/
theorem tallyHandler_no_one (inputNames : JSArray) (clients : List Client) (rest : JSString)
    (hnone : '1' ∉ rest) (hzero : jsArrayGet inputNames 0 = none) :
    tallyHandler inputNames clients (tallyOk ++ ' ' :: rest) =
      Except.ok (openFrames clients (WireMessage.tally (TallyValue.slot 0))) := by
  have htok : '1' ∉ jsTrim (rest.takeWhile (fun c => c != ' ')) :=
    fun h => hnone ((List.takeWhile_sublist _).mem (mem_jsTrim _ _ h))
  have hidx : jsIndexOf '1'
      (if jsTruthy (jsTrim (rest.takeWhile (fun c => c != ' '))) then
        jsTrim (rest.takeWhile (fun c => c != ' ')) else []) = -1 := by
    split
    · exact jsIndexOf_absent _ _ htok
    · rfl
  rw [tallyHandler_line, hidx]
  simp [hzero, broadcast_eq]

/-- C3, amended, at `TALLY OK 0000\r\n`, the directory of the seven mock
names and three subscribers: the two open ones receive `{tally: 0}`. -/
theorem tallyHandler_no_one_witness :
    '1' ∉ "0000\r\n".toList ∧
    jsArrayGet sevenNames 0 = none ∧
    tallyHandler sevenNames threeClients "TALLY OK 0000\r\n".toList =
      Except.ok [(10, WireMessage.tally (TallyValue.slot 0)),
                 (12, WireMessage.tally (TallyValue.slot 0))] :=
  ⟨by decide, by decide,
   tallyHandler_no_one sevenNames threeClients "0000\r\n".toList (by decide) (by decide)⟩

/-- C1 (the handshake resolves one slot short). With `inputCount = 8` and one
well-formed reply per query, the promise is pending after six replies and
resolves on the seventh: seven queries were written (none for slot 8), the
directory has length 8 with index 0 empty and names for slots 1 to 7 only,
slot 8 has no name, and the listener `handleTallyUpdates` installs on that
directory reports a tally for slot 8 by its number. For a slot count of 2 the
first reply resolves the promise with one name; for a slot count of 1 it is
still pending after seven replies. -/
theorem fetchInputNames_resolves_seven_names :
    (runHandshake inputCount (sevenReplies.take 6)).resolved = none ∧
    runHandshake inputCount sevenReplies =
      { inputNames := sevenNames, i := 7, listening := false, resolved := some sevenNames,
        written := queriesFrom 1 7 } ∧
    jsArrayGet sevenNames 8 = none ∧
    (sevenNames.filter Option.isSome).length = 7 ∧
    (handleTallyUpdates sevenNames).1 [{ id := 0, readyState := ReadyState.OPEN }]
        "TALLY OK 00000001\r\n".toList
      = Except.ok [(0, WireMessage.tally (TallyValue.slot 8))] ∧
    (runHandshake 2 [mockReply '1']).resolved = some [none, some "Camera 1".toList] ∧
    (runHandshake 1 sevenReplies).resolved = none := by
  decide

end VmixTimer
